import Mathlib

/-!
Shallow embedding of the photo-analysis orchestration pipeline of
`src/utils/photoAnalysis.ts` (an AI color-analysis web app).

The asynchronous external world (object storage, HTTP HEAD check, the two
structured-output AI calls, `Math.random`) is modelled by an explicit
environment record `Env`; each stage of the pipeline becomes a pure function
of that environment.  Fallible JS code (functions that may `throw`) is
modelled with `Except String`, the `String` standing for the thrown
`Error.message`.  JS strings are modelled by Lean `String`s, and the
character-level operations of the source (`hex[1]`, `slice`, `replace`,
`startsWith`, `toLowerCase`) are carried out on their underlying `List Char`
so that everything reduces in the kernel.
-/

namespace PhotoAnalysis

/-- `category` field of a `ColorResult` (`'neutral' | 'accent' | 'statement' | 'soft'`). -/
inductive Category where
  | neutral
  | accent
  | statement
  | soft
deriving DecidableEq

/-- `ColorResult` of `photoAnalysis.ts`: `{ name; hex; description; category? }`. -/
structure ColorResult where
  name : String
  hex : String
  description : String
  category : Option Category
deriving DecidableEq

/-- `seasonalDetails` sub-object of `AnalysisResult`. -/
structure SeasonalDetails where
  description : String
  characteristics : List String
  avoidColors : List String
deriving DecidableEq

/-- `AnalysisResult` of `photoAnalysis.ts`.  `makeupTips`, `wardrobeGuide` and
`seasonalDetails` are optional in the TS interface, hence `Option` here. -/
structure AnalysisResult where
  skinTone : String
  season : String
  freeColors : List ColorResult
  premiumColors : List ColorResult
  recommendations : List String
  makeupTips : Option (List String)
  wardrobeGuide : Option (List String)
  seasonalDetails : Option SeasonalDetails
deriving DecidableEq

/-- The "basic analysis" intermediate value flowing from `generateBasicAnalysis`
into `generateEnhancedAnalysis` / `generateFallbackPremiumData`: the fields
`skinTone`, `season`, `freeColors`, `recommendations` of the untyped JS object.
(When the internal fallback of `generateBasicAnalysis` returns a full
`AnalysisResult`, its four premium fields are overwritten by every consumer
before they can be observed, so this projection is observationally faithful.) -/
structure BasicData where
  skinTone : String
  season : String
  freeColors : List ColorResult
  recommendations : List String
deriving DecidableEq

/-- The object of the first `blink.ai.generateObject` response, as the code
reads it (untyped; absent string fields are modelled as `""`, which is exactly
how the code's truthiness test treats them). -/
structure RawResponse where
  skinTone : String
  season : String
  freeColors : List ColorResult
  recommendations : List String
deriving DecidableEq

/-- The object of the enrichment `blink.ai.generateObject` response
(fields per the declared schema). -/
structure EnrichedData where
  premiumColors : List ColorResult
  makeupTips : List String
  wardrobeGuide : List String
  seasonalDetails : SeasonalDetails
deriving DecidableEq

/-- The `fetch(..., { method: 'HEAD' })` response: `ok`, `status`, `statusText`. -/
structure HeadResponse where
  ok : Bool
  status : Nat
  statusText : String
deriving DecidableEq

/-- Result object of `blink.storage.upload`. -/
structure UploadResult where
  publicUrl : String
deriving DecidableEq

/-- The `File` argument: the fields the pipeline reads (`name`, `size`, `type`). -/
structure File where
  name : String
  size : Nat
  type : String
deriving DecidableEq

/-- One run's worth of outcomes of the external calls:
`upload i` is what `blink.storage.upload` does on attempt number `i`
(`.error m` = it throws with message `m`); `head` is the outcome of the HEAD
`fetch`; `ai` is the outcome of the primary `generateObject` call — `.error`
covers both network errors and the 60-second timeout rejection, `.ok none`
models a response without an `object`; `enrich` likewise for the enrichment
call; `rand` is the value of `Math.floor(Math.random() * seasons.length)`
drawn if `generateFallbackAnalysis` runs (at most one such draw happens per
run of the pipeline). -/
structure Env where
  upload : Nat → Except String UploadResult
  head : Except String HeadResponse
  ai : Except String (Option RawResponse)
  enrich : Except String (Option EnrichedData)
  rand : Fin 4

/-! ### Character/string helpers (JS string operations on `List Char`) -/

/-- A character of the class `[0-9A-Fa-f]`. -/
def isHexDigitChar (c : Char) : Bool :=
  (decide ('0' <= c) && decide (c <= '9')) ||
  (decide ('a' <= c) && decide (c <= 'f')) ||
  (decide ('A' <= c) && decide (c <= 'F'))

/-- `s.match(/^#[0-9A-Fa-f]{6}$/)` on the character list. -/
def isValidHexL : List Char → Bool
  | c :: rest => c == '#' && rest.length == 6 && rest.all isHexDigitChar
  | [] => false

/-- `hex.match(/^#[0-9A-Fa-f]{6}$/)` on strings. -/
def isValidHex (s : String) : Bool := isValidHexL s.data

/-- `s.startsWith(p)` on character lists. -/
def listStartsWith : List Char → List Char → Bool
  | _, [] => true
  | [], _ :: _ => false
  | c :: cs, p :: ps => c == p && listStartsWith cs ps

/-- JS `s.startsWith(p)`. -/
def strStartsWith (s p : String) : Bool := listStartsWith s.data p.data

/-- JS `s.toLowerCase()` (over the ASCII text appearing in this file). -/
def jsToLower (s : String) : String := String.mk (s.data.map Char.toLower)

/-- Numeric value of a hex digit (helper for `parseInt(s, 16)`). -/
def hexVal (c : Char) : Nat :=
  if decide ('0' <= c) && decide (c <= '9') then c.toNat - '0'.toNat
  else if decide ('a' <= c) && decide (c <= 'f') then c.toNat - 'a'.toNat + 10
  else if decide ('A' <= c) && decide (c <= 'F') then c.toNat - 'A'.toNat + 10
  else 0

/-- JS `s.replace('#', '')`: removes the first occurrence of `#`. -/
def dropFirstHash : List Char → List Char
  | [] => []
  | c :: cs => if c = '#' then cs else c :: dropFirstHash cs

/-- `parseInt(s, 16)` for a string of hex digits (all actual arguments in this
pipeline consist of hex digits only, so no NaN case arises). -/
def parseHexL (cs : List Char) : Nat := cs.foldl (fun n c => 16 * n + hexVal c) 0

/-! ### Hex repair (`photoAnalysis.ts` lines 258-272) -/

/-- The body of the per-color hex fix of `generateBasicAnalysis`, on character
lists: if the hex does not match `^#[0-9A-Fa-f]{6}$`, first prepend `#` when
missing, then expand a length-4 string `#abc` to `#aabbcc`
(the source reads `hex[1]`, `hex[2]`, `hex[3]`). -/
def fixHexL (cs : List Char) : List Char :=
  if isValidHexL cs then cs
  else
    let h1 := if listStartsWith cs ['#'] then cs else '#' :: cs
    if h1.length == 4 then
      match h1 with
      | _ :: a :: b :: c :: _ => ['#', a, a, b, b, c, c]
      | _ => h1
    else h1

/-- The per-color hex fix on strings. -/
def fixHex (s : String) : String := String.mk (fixHexL s.data)

/-- The `for (const color of result.freeColors)` hex-fixing loop: every color's
`hex` field is repaired in place. -/
def fixColors (cs : List ColorResult) : List ColorResult :=
  cs.map fun c => { c with hex := fixHex c.hex }

/-! ### `lightenColor` / `darkenColor` (`photoAnalysis.ts` lines 509-529) -/

/-- The channel clamp expression `R < 255 ? R < 1 ? 0 : R : 255`. -/
def clampChannel (r : Int) : Int :=
  if r < 255 then (if r < 1 then 0 else r) else 255

/-- `'#' + n.toString(16).slice(1)` for `n = 0x1000000 + R*0x10000 + G*0x100 + B`. -/
def toHexSlice1 (n : Nat) : String :=
  String.mk ('#' :: (Nat.toDigits 16 n).drop 1)

/-- `lightenColor`: parse the hex, add 40 to each channel, clamp, re-serialize. -/
def lightenColor (hex : String) : String :=
  let num : Nat := parseHexL (dropFirstHash hex.data)
  let amt : Int := 40
  let R : Int := (num / 65536 : Nat) + amt
  let G : Int := ((num / 256) % 256 : Nat) + amt
  let B : Int := (num % 256 : Nat) + amt
  toHexSlice1 (0x1000000 +
    (clampChannel R).toNat * 65536 + (clampChannel G).toNat * 256 +
    (clampChannel B).toNat)

/-- `darkenColor`: identical to `lightenColor` with `amt = -40`. -/
def darkenColor (hex : String) : String :=
  let num : Nat := parseHexL (dropFirstHash hex.data)
  let amt : Int := -40
  let R : Int := (num / 65536 : Nat) + amt
  let G : Int := ((num / 256) % 256 : Nat) + amt
  let B : Int := (num % 256 : Nat) + amt
  toHexSlice1 (0x1000000 +
    (clampChannel R).toNat * 65536 + (clampChannel G).toNat * 256 +
    (clampChannel B).toNat)

/-! ### Default colors and the free-colors padding loop (lines 243-256) -/

/-- `{ name: 'Classic Navy', hex: '#000080', ... }` (first default). -/
def classicNavy : ColorResult :=
  { name := "Classic Navy", hex := "#000080",
    description := "A timeless color that works for most people", category := none }

/-- `{ name: 'Soft Cream', hex: '#F5F5DC', ... }` (second default). -/
def softCream : ColorResult :=
  { name := "Soft Cream", hex := "#F5F5DC",
    description := "A gentle neutral that complements many skin tones", category := none }

/-- `{ name: 'Dusty Rose', hex: '#D4A5A5', ... }` (third default). -/
def dustyRose : ColorResult :=
  { name := "Dusty Rose", hex := "#D4A5A5",
    description := "A universally flattering soft pink tone", category := none }

/-- The `defaultColors` array of the padding loop. -/
def defaultColors : List ColorResult := [classicNavy, softCream, dustyRose]

/-- The body of `while (result.freeColors.length < 3)`, iterated on explicit
fuel so it reduces in the kernel.  `missingIndex = result.freeColors.length`;
`defaultColors[missingIndex]` is appended if `missingIndex < 3`, else `break`. -/
def padLoop : Nat → List ColorResult → List ColorResult
  | 0, cs => cs
  | fuel + 1, cs =>
    if cs.length < 3 then
      if h : cs.length < defaultColors.length then
        padLoop fuel (cs ++ [defaultColors.get ⟨cs.length, h⟩])
      else cs
    else cs

/-- The padding loop.  Each iteration grows the list by one and the loop stops
as soon as the length reaches 3, so 3 units of fuel always suffice. -/
def padFreeColors (cs : List ColorResult) : List ColorResult := padLoop 3 cs

/-! ### Per-season fallback tables (`generateFallbackPremiumData`, lines 408-437) -/

/-- `seasonColors.Spring`. -/
def springBaseColors : List ColorResult :=
  [ { name := "Coral Pink", hex := "#FF7F7F", description := "Vibrant and energizing",
      category := some Category.accent },
    { name := "Golden Yellow", hex := "#FFD700", description := "Bright and cheerful",
      category := some Category.statement },
    { name := "Peach", hex := "#FFCBA4", description := "Soft and flattering",
      category := some Category.soft },
    { name := "Warm Beige", hex := "#F5F5DC", description := "Perfect neutral base",
      category := some Category.neutral },
    { name := "Turquoise", hex := "#40E0D0", description := "Fresh and lively",
      category := some Category.accent } ]

/-- `seasonColors.Summer`. -/
def summerBaseColors : List ColorResult :=
  [ { name := "Soft Blue", hex := "#87CEEB", description := "Cool and calming",
      category := some Category.accent },
    { name := "Lavender", hex := "#E6E6FA", description := "Gentle and elegant",
      category := some Category.soft },
    { name := "Rose Pink", hex := "#FFC0CB", description := "Romantic and soft",
      category := some Category.accent },
    { name := "Cool Gray", hex := "#D3D3D3", description := "Sophisticated neutral",
      category := some Category.neutral },
    { name := "Mint Green", hex := "#98FB98", description := "Fresh and cool",
      category := some Category.soft } ]

/-- `seasonColors.Autumn`. -/
def autumnBaseColors : List ColorResult :=
  [ { name := "Burnt Orange", hex := "#CC5500", description := "Rich and warm",
      category := some Category.statement },
    { name := "Deep Burgundy", hex := "#800020", description := "Luxurious and bold",
      category := some Category.statement },
    { name := "Golden Brown", hex := "#B8860B", description := "Earthy and grounding",
      category := some Category.neutral },
    { name := "Olive Green", hex := "#808000", description := "Natural and sophisticated",
      category := some Category.accent },
    { name := "Warm Cream", hex := "#FFFDD0", description := "Soft neutral base",
      category := some Category.neutral } ]

/-- `seasonColors.Winter`. -/
def winterBaseColors : List ColorResult :=
  [ { name := "True Red", hex := "#FF0000", description := "Bold and striking",
      category := some Category.statement },
    { name := "Royal Blue", hex := "#4169E1", description := "Regal and powerful",
      category := some Category.statement },
    { name := "Pure White", hex := "#FFFFFF", description := "Clean and crisp",
      category := some Category.neutral },
    { name := "Black", hex := "#000000", description := "Classic and elegant",
      category := some Category.neutral },
    { name := "Emerald Green", hex := "#50C878", description := "Vibrant and luxurious",
      category := some Category.accent } ]

/-- `seasonColors[basicAnalysis.season as keyof typeof seasonColors] || seasonColors.Spring`. -/
def seasonColorsFor (season : String) : List ColorResult :=
  if season = "Spring" then springBaseColors
  else if season = "Summer" then summerBaseColors
  else if season = "Autumn" then autumnBaseColors
  else if season = "Winter" then winterBaseColors
  else springBaseColors

/-- The `Light <name>` variant: spread of the base color with `name`, `hex`,
`description` and `category` overridden. -/
def lightVariant (c : ColorResult) : ColorResult :=
  { c with
    name := "Light " ++ c.name,
    hex := lightenColor c.hex,
    description := "Lighter variation of " ++ jsToLower c.name,
    category := some Category.soft }

/-- The `Deep <name>` variant. -/
def deepVariant (c : ColorResult) : ColorResult :=
  { c with
    name := "Deep " ++ c.name,
    hex := darkenColor c.hex,
    description := "Deeper variation of " ++ jsToLower c.name,
    category := some Category.statement }

/-- The fixed `makeupTips` of the fallback premium data (first entry
interpolates `basicAnalysis.season.toLowerCase()`). -/
def fallbackMakeupTips (season : String) : List String :=
  [ "Use " ++ jsToLower season ++ " tones for your foundation to complement your undertones",
    "Choose lipstick colors that enhance your natural lip color",
    "Apply eyeshadow in colors that make your eyes pop",
    "Use blush in colors that naturally flush your cheeks",
    "Choose eyeliner colors that define without overpowering",
    "Select mascara that enhances your natural lash color",
    "Use highlighter in tones that complement your skin",
    "Choose nail polish colors that coordinate with your palette" ]

/-- The fixed `wardrobeGuide` of the fallback premium data. -/
def fallbackWardrobeGuide : List String :=
  [ "Build your wardrobe around your best neutral colors",
    "Add accent colors through accessories and statement pieces",
    "Choose fabrics and textures that complement your season",
    "Invest in quality basics in your most flattering neutrals",
    "Use your statement colors for special occasions",
    "Layer different tones from your palette for depth",
    "Choose patterns that incorporate your best colors",
    "Select jewelry metals that complement your undertones",
    "Consider the lighting when choosing colors for different occasions",
    "Mix textures within your color palette for visual interest" ]

/-- The fixed `seasonalDetails` of the fallback premium data (description
interpolates the season). -/
def fallbackSeasonalDetails (season : String) : SeasonalDetails :=
  { description := "Your " ++ season ++
      " season is characterized by specific color harmonies that complement your natural features and bring out your best qualities.",
    characteristics :=
      [ "Natural warmth in skin undertones",
        "Harmonious color palette that enhances your features",
        "Balanced contrast levels that flatter your complexion",
        "Colors that make your eyes appear brighter",
        "Tones that give your skin a healthy glow" ],
    avoidColors :=
      [ "Colors that clash with your undertones",
        "Overly bright or muted shades that wash you out",
        "Colors that make you appear tired or pale",
        "Tones that compete with your natural coloring",
        "Shades that require heavy makeup to look good" ] }

/-- `generateFallbackPremiumData` (lines 405-504): expands the per-season base
palette with `Light`/`Deep` variants, `.slice(0, 24)`, and attaches the fixed
premium texts onto the basic result. -/
def generateFallbackPremiumData (b : BasicData) : AnalysisResult :=
  let baseColors := seasonColorsFor b.season
  let premiumColors :=
    (baseColors ++ baseColors.map lightVariant ++ baseColors.map deepVariant).take 24
  { skinTone := b.skinTone, season := b.season, freeColors := b.freeColors,
    recommendations := b.recommendations,
    premiumColors := premiumColors,
    makeupTips := some (fallbackMakeupTips b.season),
    wardrobeGuide := some fallbackWardrobeGuide,
    seasonalDetails := some (fallbackSeasonalDetails b.season) }

/-! ### Full fallback (`generateFallbackAnalysis`, lines 375-400) -/

/-- The `seasons` array and the draw
`seasons[Math.floor(Math.random() * seasons.length)]`. -/
def randomSeasonOf (r : Fin 4) : String :=
  match r.val with
  | 0 => "Spring"
  | 1 => "Summer"
  | 2 => "Autumn"
  | _ => "Winter"

/-- The `fallbackAnalysis` object literal built in `generateFallbackAnalysis`. -/
def fallbackBasic (rand : Fin 4) : BasicData :=
  let randomSeason := randomSeasonOf rand
  { skinTone := "Based on general analysis principles, we\x27ve determined your "
      ++ jsToLower randomSeason
      ++ " coloring. While we couldn\x27t perform a detailed AI analysis, these colors are carefully selected to complement "
      ++ jsToLower randomSeason ++ " features.",
    season := randomSeason,
    freeColors :=
      [ { name := "Soft Pink", hex := "#FFB6C1",
          description := "A universally flattering soft pink that works well for most skin tones",
          category := none },
        { name := "Warm Beige", hex := "#F5F5DC",
          description := "A versatile neutral that complements many complexions",
          category := none },
        { name := "Light Blue", hex := "#ADD8E6",
          description := "A gentle blue that brings out natural brightness",
          category := none } ],
    recommendations :=
      [ "Explore " ++ jsToLower randomSeason
          ++ " color palettes that complement your natural features",
        "Consider colors that enhance your skin tone and bring out your best features",
        "Try different shades within your color season to find your favorites",
        "Use these colors as a starting point for building your personal palette" ] }

/-- `generateFallbackAnalysis(fileName)`: builds the random-season basic result
and delegates to `generateFallbackPremiumData` (`fileName` is only logged). -/
def generateFallbackAnalysis (rand : Fin 4) (fileName : String) : AnalysisResult :=
  generateFallbackPremiumData (fallbackBasic rand)

/-! ### Upload with retry (`uploadWithRetry`, lines 82-138) -/

/-- Execution trace of `uploadWithRetry`: how many times `blink.storage.upload`
was called, which backoff waits (`setTimeout` delays, in ms) were performed in
order, and the returned value / thrown error. -/
structure UploadTrace where
  attempts : Nat
  delays : List Nat
  result : Except String UploadResult

/-- The body of one upload attempt after `blink.storage.upload` settles:
a thrown error propagates; a result without a `publicUrl` or with one not
starting with `http` is turned into the corresponding attempt failure. -/
def attemptResult : Except String UploadResult → Except String UploadResult
  | .error e => .error e
  | .ok r =>
    if r.publicUrl = "" then .error "Upload failed: No public URL returned"
    else if strStartsWith r.publicUrl "http" = false then
      .error "Upload failed: Invalid public URL format"
    else .ok r

/-- `${lastError?.message}`: JS stringifies a null `lastError` as `undefined`. -/
def lastErrorMessage : Option String → String
  | none => "undefined"
  | some m => m

/-- The `for (let attempt = 1; attempt <= maxRetries; attempt++)` loop,
with `remaining = maxRetries - attempt + 1` as structural fuel.  On attempt
failure with `attempt < maxRetries`, a backoff wait of
`Math.pow(2, attempt) * 1000` ms is recorded.  When the loop ends, the
function throws `Upload failed after ${maxRetries} attempts: ${lastError?.message}`. -/
def runAttempts (outcome : Nat → Except String UploadResult) (maxRetries : Nat)
    (attempt : Nat) (lastError : Option String) : Nat → UploadTrace
  | 0 =>
    { attempts := 0, delays := [],
      result := .error ("Upload failed after " ++ toString maxRetries
        ++ " attempts: " ++ lastErrorMessage lastError) }
  | remaining + 1 =>
    match attemptResult (outcome attempt) with
    | .ok r => { attempts := 1, delays := [], result := .ok r }
    | .error e =>
      let rest := runAttempts outcome maxRetries (attempt + 1) (some e) remaining
      { attempts := rest.attempts + 1,
        delays := (if attempt < maxRetries then [2 ^ attempt * 1000] else [])
          ++ rest.delays,
        result := rest.result }

/-- `uploadWithRetry(file, userId, maxRetries = 3)`: the pre-loop validation
(`file.size === 0` → `'Please select a valid image file'`;
`file.size > 15 * 1024 * 1024` → `'File too large: Maximum size is 15MB'`;
the MIME-type check only logs a warning, never throws), then the retry loop.
`userId` only enters the storage path, which is part of the opaque upload
outcome. -/
def uploadWithRetry (env : Env) (file : File) (userId : String)
    (maxRetries : Nat := 3) : UploadTrace :=
  if file.size = 0 then
    { attempts := 0, delays := [], result := .error "Please select a valid image file" }
  else if file.size > 15 * 1024 * 1024 then
    { attempts := 0, delays := [], result := .error "File too large: Maximum size is 15MB" }
  else
    runAttempts env.upload maxRetries 1 none maxRetries

/-! ### URL reachability check (lines 38-48) -/

/-- The inner `try`: `fetch(url, { method: 'HEAD' })`; a non-`ok` response
throws `Image not accessible: ${status} ${statusText}`; the inner `catch`
replaces any error with `'Uploaded image is not accessible. Please try again.'`. -/
def validateUploadedUrl (head : Except String HeadResponse) : Except String Unit :=
  let inner : Except String Unit :=
    match head with
    | .error e => .error e
    | .ok resp =>
      if resp.ok then .ok ()
      else .error ("Image not accessible: " ++ toString resp.status ++ " " ++ resp.statusText)
  match inner with
  | .ok _ => .ok ()
  | .error _ => .error "Uploaded image is not accessible. Please try again."

/-! ### Primary analysis (`generateBasicAnalysis`, lines 143-289) -/

/-- The lenient response validation
`!result.skinTone || !result.season || !result.freeColors || result.freeColors.length < 1`
(a missing or empty string field is falsy; a present array is truthy). -/
def incompleteResponse (r : RawResponse) : Bool :=
  r.skinTone == "" || r.season == "" || r.freeColors.length < 1

/-- `generateBasicAnalysis(imageUrl)`: race the AI call against the 60s timer
(`env.ai .error` covers both a model error and the timeout rejection); a
missing `response.object` throws; an incomplete object returns the full
fallback analysis instead of throwing; otherwise pad `freeColors` to 3 from
the defaults and repair each hex.  Any error is re-thrown by the `catch` with
the prefix `AI analysis failed: `. -/
def generateBasicAnalysis (env : Env) (imageUrl : String) : Except String BasicData :=
  match env.ai with
  | .error e => .error ("AI analysis failed: " ++ e)
  | .ok none => .error ("AI analysis failed: " ++ "AI analysis failed to generate results")
  | .ok (some r) =>
    if incompleteResponse r then
      .ok (fallbackBasic env.rand)
    else
      .ok { skinTone := r.skinTone, season := r.season,
            freeColors := fixColors (padFreeColors r.freeColors),
            recommendations := r.recommendations }

/-! ### Enrichment (`generateEnhancedAnalysis`, lines 294-370) -/

/-- `generateEnhancedAnalysis(basicAnalysis)`: on a response with an `object`,
`{ ...basicAnalysis, ...enhancedResponse.object }`; on any thrown error or a
response without an `object`, fall through to `generateFallbackPremiumData`.
This function never throws. -/
def generateEnhancedAnalysis (env : Env) (b : BasicData) : AnalysisResult :=
  match env.enrich with
  | .ok (some e) =>
    { skinTone := b.skinTone, season := b.season, freeColors := b.freeColors,
      recommendations := b.recommendations,
      premiumColors := e.premiumColors,
      makeupTips := some e.makeupTips,
      wardrobeGuide := some e.wardrobeGuide,
      seasonalDetails := some e.seasonalDetails }
  | _ => generateFallbackPremiumData b

/-! ### Top-level pipeline (`analyzePhotoWithAI`, lines 28-77) -/

/-- The body of the top-level `try` block: upload with retry, HEAD-validate
the public URL, primary analysis, enrichment. -/
def pipelineBody (env : Env) (file : File) (userId : String) :
    Except String AnalysisResult :=
  match (uploadWithRetry env file userId).result with
  | .error e => .error e
  | .ok up =>
    match validateUploadedUrl env.head with
    | .error e => .error e
    | .ok _ =>
      match generateBasicAnalysis env up.publicUrl with
      | .error e => .error e
      | .ok basic => .ok (generateEnhancedAnalysis env basic)

/-- `analyzePhotoWithAI(file, userId)`: the single top-level `catch` converts
any error thrown anywhere in the body into `generateFallbackAnalysis(file.name)`. -/
def analyzePhotoWithAI (env : Env) (file : File) (userId : String) :
    Except String AnalysisResult :=
  match pipelineBody env file userId with
  | .ok r => .ok r
  | .error _ => .ok (generateFallbackAnalysis env.rand file.name)

/-! ### Spec-side notions used by the claims -/

/-- The four valid seasons. -/
def validSeasons : List String := ["Spring", "Summer", "Autumn", "Winter"]

/-- An `AnalysisResult` that is structurally complete: exactly 3 free colors,
a valid season, a nonempty premium palette, nonempty recommendations, and all
three optional premium sections present. -/
def completeResult (r : AnalysisResult) : Prop :=
  r.freeColors.length = 3 ∧ r.season ∈ validSeasons ∧
  r.premiumColors ≠ [] ∧ r.recommendations ≠ [] ∧
  r.makeupTips.isSome ∧ r.wardrobeGuide.isSome ∧ r.seasonalDetails.isSome

instance (r : AnalysisResult) : Decidable (completeResult r) := by
  unfold completeResult; infer_instance

/-- The `(r, g, b)` channels encoded by a hex color string. -/
def rgbChannels (hex : String) : Nat × Nat × Nat :=
  let n := parseHexL (dropFirstHash hex.data)
  (n / 65536, n / 256 % 256, n % 256)

/-! ### Helper lemmas -/

theorem padFreeColors_cons3 (a b c : ColorResult) (rest : List ColorResult) :
    padFreeColors (a :: b :: c :: rest) = a :: b :: c :: rest := rfl

theorem padFreeColors_singleton (a : ColorResult) :
    padFreeColors [a] = [a, softCream, dustyRose] := rfl

theorem padFreeColors_pair (a b : ColorResult) :
    padFreeColors [a, b] = [a, b, dustyRose] := rfl

theorem padFreeColors_nil : padFreeColors [] = defaultColors := rfl

/-- The padding loop pads to length 3 and never truncates. -/
theorem padFreeColors_length : ∀ cs : List ColorResult,
    (padFreeColors cs).length = max cs.length 3
  | [] => rfl
  | [a] => rfl
  | [a, b] => rfl
  | a :: b :: c :: rest => by
    rw [padFreeColors_cons3]
    simp [List.length_cons]

/-- A list already holding at least 3 colors is left untouched by the loop. -/
theorem padFreeColors_of_three_le : ∀ (cs : List ColorResult), 3 ≤ cs.length →
    padFreeColors cs = cs
  | [], h => by simp at h
  | [a], h => by simp at h
  | [a, b], h => by simp at h
  | a :: b :: c :: rest, _ => padFreeColors_cons3 a b c rest

/-- The retry loop calls the upload at most `fuel` times. -/
theorem runAttempts_attempts_le : ∀ (fuel : Nat)
    (o : Nat → Except String UploadResult) (m a : Nat) (l : Option String),
    (runAttempts o m a l fuel).attempts ≤ fuel := by
  intro fuel
  induction fuel with
  | zero => intro o m a l; exact Nat.le_refl 0
  | succ n ih =>
    intro o m a l
    cases h : attemptResult (o a) with
    | ok r => simp [runAttempts, h]
    | error e => simp [runAttempts, h]; exact ih o m (a + 1) (some e)

/-- The random fallback season is always one of the four valid seasons. -/
theorem mem_validSeasons_randomSeasonOf (r : Fin 4) :
    randomSeasonOf r ∈ validSeasons := by
  fin_cases r <;> decide

/-- The interpolated retries-exhausted message, with the count spelled out. -/
theorem uploadFailMsg (m : String) :
    "Upload failed after " ++ toString (3 : Nat) ++ " attempts: " ++ m =
      "Upload failed after 3 attempts: " ++ m := rfl

/-! ### Concrete fixtures used by witnesses and counterexamples -/

/-- A benign environment: upload succeeds with an absolute URL, the HEAD check
passes, both AI calls fail (so the fallback paths run unless overridden). -/
def envBase : Env :=
  { upload := fun _ => .ok { publicUrl := "https://cdn.example/img.png" },
    head := .ok { ok := true, status := 200, statusText := "OK" },
    ai := .error "Network error",
    enrich := .error "Network error",
    rand := 2 }

/-- An environment whose storage upload always throws. -/
def envUploadFail : Env := { envBase with upload := fun _ => .error "network down" }

/-- A valid 2 MiB JPEG file. -/
def sampleFile : File :=
  { name := "portrait.jpg", size := 2 * 1024 * 1024, type := "image/jpeg" }

/-- A 0-byte file. -/
def zeroByteFile : File := { name := "a.jpg", size := 0, type := "image/jpeg" }

end PhotoAnalysis
namespace PhotoAnalysis

/-- C7: the per-color hex repair maps `abc` to `#aabbcc` and `123456` to
`#123456`, and is what the basic stage applies to each color of the result
before returning it. -/
theorem claim_C7_hex_repair :
    fixHex "abc" = "#aabbcc" ∧ fixHex "123456" = "#123456" ∧
    fixColors
      [ { name := "Sky", hex := "abc", description := "d", category := none },
        { name := "Navy", hex := "123456", description := "d", category := none } ] =
      [ { name := "Sky", hex := "#aabbcc", description := "d", category := none },
        { name := "Navy", hex := "#123456", description := "d", category := none } ] :=
  ⟨rfl, rfl, rfl⟩

/-- C10: the padding loop indexes the default list at the current length, so
with the ≥ 1 guard the first default is never appended. -/
theorem claim_C10_padding_by_index :
    (∀ cs : List ColorResult, 1 ≤ cs.length →
      padFreeColors cs = cs ++ (defaultColors.drop cs.length).take (3 - cs.length)) ∧
    (∀ cs : List ColorResult, 1 ≤ cs.length →
      classicNavy ∉ defaultColors.drop cs.length) ∧
    (∀ c, padFreeColors [c] = [c, softCream, dustyRose]) ∧
    (∀ c d, padFreeColors [c, d] = [c, d, dustyRose]) ∧
    (∀ (env : Env) (url : String) (resp : RawResponse) (b : BasicData),
      env.ai = .ok (some resp) → incompleteResponse resp = false →
      generateBasicAnalysis env url = .ok b →
      b.freeColors = fixColors (padFreeColors resp.freeColors)) := by
  refine ⟨?_, ?_, padFreeColors_singleton, padFreeColors_pair, ?_⟩
  · intro cs h
    match cs, h with
    | [a], _ => simpa [defaultColors] using padFreeColors_singleton a
    | [a, b], _ => simpa [defaultColors] using padFreeColors_pair a b
    | a :: b :: c :: rest, _ =>
      rw [padFreeColors_cons3]
      have h3 : 3 - (a :: b :: c :: rest).length = 0 := by simp
      rw [h3]
      simp
  · intro cs h
    match cs, h with
    | [a], _ =>
      show classicNavy ∉ defaultColors.drop 1
      decide
    | [a, b], _ =>
      show classicNavy ∉ defaultColors.drop 2
      decide
    | a :: b :: c :: rest, _ =>
      have : defaultColors.drop (a :: b :: c :: rest).length = [] := by
        apply List.drop_eq_nil_of_le
        simp [defaultColors]
      rw [this]
      simp
  · intro env url resp b hai hcomp hb
    unfold generateBasicAnalysis at hb
    rw [hai] at hb
    simp [hcomp] at hb
    subst hb
    rfl

/-- C10 witness: a one-color list is padded with the second and third
defaults only. -/
theorem claim_C10_witness :
    padFreeColors [dustyRose] = [dustyRose] ++ (defaultColors.drop 1).take 2 :=
  claim_C10_padding_by_index.1 [dustyRose] (by decide)

/-- Length of the hex-fix loop output. -/
theorem fixColors_length (cs : List ColorResult) :
    (fixColors cs).length = cs.length := List.length_map cs _

/-- An AI response with four colors (passes the lenient validation). -/
def fourColorResponse : RawResponse :=
  { skinTone := "warm", season := "Autumn",
    freeColors :=
      [ { name := "A", hex := "#112233", description := "da", category := none },
        { name := "B", hex := "#223344", description := "db", category := none },
        { name := "C", hex := "#334455", description := "dc", category := none },
        { name := "D", hex := "#445566", description := "dd", category := none } ],
    recommendations := ["r1", "r2", "r3"] }

/-- Environment whose primary AI call returns the four-color response. -/
def envFourColors : Env := { envBase with ai := .ok (some fourColorResponse) }

/-- C3 counterexample: an accepted response carrying 4 colors is not truncated:
the basic stage returns 4 free colors, not 3. -/
theorem claim_C3_counterexample :
    (generateBasicAnalysis envFourColors "https://cdn.example/img.png").toOption.map
      (fun b => b.freeColors.length) = some 4 := rfl

/-- C3 amended: accepted responses with at most 3 colors yield exactly 3 free
colors (padding), but responses with more than 3 keep their count. -/
theorem claim_C3_free_colors_cardinality (env : Env) (url : String)
    (resp : RawResponse) (b : BasicData)
    (hai : env.ai = .ok (some resp))
    (hb : generateBasicAnalysis env url = .ok b) :
    (resp.freeColors.length ≤ 3 → b.freeColors.length = 3) ∧
    (incompleteResponse resp = false → 3 < resp.freeColors.length →
      b.freeColors.length = resp.freeColors.length) := by
  unfold generateBasicAnalysis at hb
  rw [hai] at hb
  by_cases hcomp : incompleteResponse resp = true
  · simp [hcomp] at hb
    subst hb
    constructor
    · intro _; rfl
    · intro hf; rw [hf] at hcomp; cases hcomp
  · have hc : incompleteResponse resp = false := by simpa using hcomp
    simp [hc] at hb
    subst hb
    constructor
    · intro hle
      show (fixColors (padFreeColors resp.freeColors)).length = 3
      rw [fixColors_length, padFreeColors_length]
      omega
    · intro _ hlt
      show (fixColors (padFreeColors resp.freeColors)).length = resp.freeColors.length
      rw [fixColors_length, padFreeColors_length]
      omega

/-- An AI response with two valid colors. -/
def twoColorResponse : RawResponse :=
  { skinTone := "warm", season := "Summer",
    freeColors :=
      [ { name := "A", hex := "#112233", description := "da", category := none },
        { name := "B", hex := "#223344", description := "db", category := none } ],
    recommendations := ["r1", "r2", "r3"] }

/-- Environment whose primary AI call returns the two-color response. -/
def envTwoColors : Env := { envBase with ai := .ok (some twoColorResponse) }

/-- C3 witness: with a 2-color response the basic stage returns 3 colors. -/
theorem claim_C3_witness :
    (fixColors (padFreeColors twoColorResponse.freeColors)).length = 3 :=
  (claim_C3_free_colors_cardinality envTwoColors "https://cdn.example/img.png"
    twoColorResponse
    { skinTone := twoColorResponse.skinTone, season := twoColorResponse.season,
      freeColors := fixColors (padFreeColors twoColorResponse.freeColors),
      recommendations := twoColorResponse.recommendations }
    rfl rfl).1 (by decide)

/-- C9: per-season fallback premium data is 5 base + 5 Light + 5 Deep = 15
colors, with channelwise +40 / -40 clamped variants; the slice to 24 is a
no-op. -/
theorem claim_C9_fallback_premium (b : BasicData) (h : b.season ∈ validSeasons) :
    (generateFallbackPremiumData b).premiumColors =
      seasonColorsFor b.season ++ (seasonColorsFor b.season).map lightVariant
        ++ (seasonColorsFor b.season).map deepVariant ∧
    (generateFallbackPremiumData b).premiumColors.length = 15 ∧
    (∀ c ∈ seasonColorsFor b.season,
      (lightVariant c).name = "Light " ++ c.name ∧
      (lightVariant c).category = some Category.soft ∧
      rgbChannels (lightVariant c).hex =
        (min ((rgbChannels c.hex).1 + 40) 255,
         min ((rgbChannels c.hex).2.1 + 40) 255,
         min ((rgbChannels c.hex).2.2 + 40) 255)) ∧
    (∀ c ∈ seasonColorsFor b.season,
      (deepVariant c).name = "Deep " ++ c.name ∧
      (deepVariant c).category = some Category.statement ∧
      rgbChannels (deepVariant c).hex =
        ((rgbChannels c.hex).1 - 40, (rgbChannels c.hex).2.1 - 40,
         (rgbChannels c.hex).2.2 - 40)) := by
  have hp : (generateFallbackPremiumData b).premiumColors =
      (seasonColorsFor b.season ++ (seasonColorsFor b.season).map lightVariant
        ++ (seasonColorsFor b.season).map deepVariant).take 24 := rfl
  simp only [validSeasons, List.mem_cons, List.not_mem_nil, or_false] at h
  rcases h with h | h | h | h <;> rw [hp, h] <;> decide

/-- A basic result with the Spring season. -/
def springBasic : BasicData :=
  { skinTone := "s", season := "Spring", freeColors := [], recommendations := [] }

/-- C9 witness: for a Spring basic result the premium palette has 15 colors. -/
theorem claim_C9_witness :
    (generateFallbackPremiumData springBasic).premiumColors.length = 15 :=
  (claim_C9_fallback_premium springBasic (by decide)).2.1

/-- Characters of the class `[0-9A-Fa-f]` are not `#`. -/
theorem beq_hash_eq_false_of_isHexDigitChar {c : Char} (h : isHexDigitChar c = true) :
    (c == '#') = false := by
  cases hc : c == '#'
  · rfl
  · rw [show c = '#' from by exact beq_iff_eq.mp hc] at h
    exact absurd h (by decide)

/-- Core hex-repair correctness: on the four repairable shapes (already valid,
6 hex digits without `#`, 3 hex digits without `#`, `#` plus 3 hex digits),
the repair produces a string matching `^#[0-9A-Fa-f]{6}$`. -/
theorem fixHexL_valid (cs : List Char)
    (h : isValidHexL cs = true ∨
         (cs.length = 6 ∧ cs.all isHexDigitChar = true) ∨
         (cs.length = 3 ∧ cs.all isHexDigitChar = true) ∨
         (∃ t, cs = '#' :: t ∧ t.length = 3 ∧ t.all isHexDigitChar = true)) :
    isValidHexL (fixHexL cs) = true := by
  rcases h with h | ⟨h6, hall⟩ | ⟨h3, hall⟩ | ⟨t, rfl, h3, hall⟩
  · unfold fixHexL
    rw [if_pos h]
    exact h
  · cases cs with
    | nil => simp at h6
    | cons c rest =>
      have hr : rest.length = 5 := by simpa using h6
      have hc : isHexDigitChar c = true := by
        have := List.all_eq_true.mp hall
        exact this c (List.mem_cons_self c rest)
      have hch : (c == '#') = false := beq_hash_eq_false_of_isHexDigitChar hc
      have hval : isValidHexL (c :: rest) = false := by
        simp [isValidHexL, hch]
      unfold fixHexL
      rw [if_neg (by simp [hval])]
      have hsw : listStartsWith (c :: rest) ['#'] = false := by
        simp [listStartsWith, hch]
      rw [hsw]
      simp [isValidHexL, hr, hall, hc]
  · obtain ⟨a, b, c, rfl⟩ := List.length_eq_three.mp h3
    have ha : isHexDigitChar a = true := by
      have := List.all_eq_true.mp hall
      exact this a (by simp)
    have hb : isHexDigitChar b = true := by
      have := List.all_eq_true.mp hall
      exact this b (by simp)
    have hc : isHexDigitChar c = true := by
      have := List.all_eq_true.mp hall
      exact this c (by simp)
    have hah : (a == '#') = false := beq_hash_eq_false_of_isHexDigitChar ha
    unfold fixHexL
    rw [if_neg (by simp [isValidHexL, hah])]
    have hsw : listStartsWith [a, b, c] ['#'] = false := by
      simp [listStartsWith, hah]
    rw [hsw]
    simp [isValidHexL, ha, hb, hc]
  · obtain ⟨a, b, c, rfl⟩ := List.length_eq_three.mp h3
    have ha : isHexDigitChar a = true := by
      have := List.all_eq_true.mp hall
      exact this a (by simp)
    have hb : isHexDigitChar b = true := by
      have := List.all_eq_true.mp hall
      exact this b (by simp)
    have hc : isHexDigitChar c = true := by
      have := List.all_eq_true.mp hall
      exact this c (by simp)
    unfold fixHexL
    rw [if_neg (by simp [isValidHexL])]
    have hsw : listStartsWith ['#', a, b, c] ['#'] = true := by
      simp [listStartsWith]
    rw [hsw]
    simp [isValidHexL, ha, hb, hc]

/-- The shapes of model-returned hex strings that the repair step can actually
normalize: already valid, 6 hex digits missing the `#`, 3 hex digits with or
without the `#`. -/
def repairableHexShape (s : String) : Prop :=
  isValidHex s = true ∨
  (s.data.length = 6 ∧ s.data.all isHexDigitChar = true) ∨
  (s.data.length = 3 ∧ s.data.all isHexDigitChar = true) ∨
  (∃ t, s.data = '#' :: t ∧ t.length = 3 ∧ t.all isHexDigitChar = true)

/-- Every base table has 5 colors, whatever the season string. -/
theorem seasonColorsFor_length (s : String) : (seasonColorsFor s).length = 5 := by
  unfold seasonColorsFor
  split_ifs <;> rfl

/-- The fallback premium palette always has exactly 15 colors. -/
theorem fallbackPremium_length (b : BasicData) :
    (generateFallbackPremiumData b).premiumColors.length = 15 := by
  show ((seasonColorsFor b.season ++ (seasonColorsFor b.season).map lightVariant
      ++ (seasonColorsFor b.season).map deepVariant).take 24).length = 15
  simp [List.length_take, List.length_append, List.length_map, seasonColorsFor_length]

/-- Every hex in the fallback premium palette matches the 6-digit pattern. -/
theorem fallbackPremium_hex_valid (b : BasicData) :
    ((generateFallbackPremiumData b).premiumColors).all
      (fun c => isValidHex c.hex) = true := by
  show ((seasonColorsFor b.season ++ (seasonColorsFor b.season).map lightVariant
      ++ (seasonColorsFor b.season).map deepVariant).take 24).all
      (fun c => isValidHex c.hex) = true
  unfold seasonColorsFor
  split_ifs <;> decide

/-- An enrichment object whose only premium color has a malformed hex. -/
def badEnriched : EnrichedData :=
  { premiumColors :=
      [ { name := "Bad", hex := "zzz", description := "d",
          category := some Category.accent } ],
    makeupTips := ["m"], wardrobeGuide := ["w"],
    seasonalDetails := { description := "d", characteristics := ["c"], avoidColors := ["a"] } }

/-- A response whose first color has a 5-digit hex (not repairable). -/
def badHexResponse : RawResponse :=
  { skinTone := "warm", season := "Winter",
    freeColors :=
      [ { name := "X", hex := "12345", description := "dx", category := none },
        { name := "Y", hex := "#223344", description := "dy", category := none },
        { name := "Z", hex := "#334455", description := "dz", category := none } ],
    recommendations := ["r1", "r2", "r3"] }

/-- Environment producing the bad-hex response and the bad enrichment. -/
def envBadHex : Env :=
  { envBase with ai := .ok (some badHexResponse), enrich := .ok (some badEnriched) }

/-- C4 counterexample: the pipeline returns a result whose first free color
hex (`#12345`, repaired from `12345`) and whose only premium color hex
(`zzz`, passed through the enrichment merge untouched) both fail
`^#[0-9A-Fa-f]{6}$`. -/
theorem claim_C4_counterexample :
    (analyzePhotoWithAI envBadHex sampleFile "user-1").toOption.map
      (fun r => (r.freeColors.map fun c => isValidHex c.hex,
                 r.premiumColors.map fun c => isValidHex c.hex)) =
      some ([false, true, true], [false]) := rfl

/-- C4 amended: hex validity holds exactly where a normalization step runs —
the basic-stage repair normalizes the repairable shapes, the fallback path
produces only valid hexes, but the enrichment merge passes premium colors
through without any normalization. -/
theorem claim_C4_hex_normalization :
    (∀ s : String, repairableHexShape s → isValidHex (fixHex s) = true) ∧
    (∀ b : BasicData,
      ((generateFallbackPremiumData b).premiumColors).all
        (fun c => isValidHex c.hex) = true) ∧
    (∀ (rand : Fin 4) (fn : String),
      ((generateFallbackAnalysis rand fn).freeColors).all
        (fun c => isValidHex c.hex) = true ∧
      ((generateFallbackAnalysis rand fn).premiumColors).all
        (fun c => isValidHex c.hex) = true) ∧
    (∀ (env : Env) (b : BasicData) (e : EnrichedData), env.enrich = .ok (some e) →
      (generateEnhancedAnalysis env b).premiumColors = e.premiumColors) := by
  refine ⟨?_, fallbackPremium_hex_valid, ?_, ?_⟩
  · intro s h
    exact fixHexL_valid s.data h
  · intro rand fn
    exact ⟨rfl, fallbackPremium_hex_valid (fallbackBasic rand)⟩
  · intro env b e he
    simp [generateEnhancedAnalysis, he]

/-- C4 witness: the repairable 3-digit form `abc` normalizes to a valid hex. -/
theorem claim_C4_witness : isValidHex (fixHex "abc") = true :=
  claim_C4_hex_normalization.1 "abc" (Or.inr (Or.inr (Or.inl ⟨by decide, by decide⟩)))

/-- Enrichment preserves the season of the basic result on every branch. -/
theorem enhanced_season (env : Env) (b : BasicData) :
    (generateEnhancedAnalysis env b).season = b.season := by
  cases h : env.enrich with
  | error e =>
    have hf : generateEnhancedAnalysis env b = generateFallbackPremiumData b := by
      simp [generateEnhancedAnalysis, h]
    rw [hf]
    rfl
  | ok oe =>
    cases oe with
    | none =>
      have hf : generateEnhancedAnalysis env b = generateFallbackPremiumData b := by
        simp [generateEnhancedAnalysis, h]
      rw [hf]
      rfl
    | some e => simp [generateEnhancedAnalysis, h]

/-- Both total-fallback results carry the randomly drawn season. -/
theorem fallbackAnalysis_season (rand : Fin 4) (fn : String) :
    (generateFallbackAnalysis rand fn).season = randomSeasonOf rand := rfl

/-- A response with a non-empty season that is not one of the four values. -/
def bananaResponse : RawResponse :=
  { skinTone := "warm", season := "Banana",
    freeColors :=
      [ { name := "A", hex := "#112233", description := "da", category := none },
        { name := "B", hex := "#223344", description := "db", category := none },
        { name := "C", hex := "#334455", description := "dc", category := none } ],
    recommendations := ["r1", "r2", "r3"] }

/-- Environment whose primary AI call returns the `Banana` season. -/
def envBanana : Env := { envBase with ai := .ok (some bananaResponse) }

/-- C5 counterexample: an unknown non-empty season passes the truthiness-only
validation and is carried through to the final result unchanged — it is not
replaced by a random valid season. -/
theorem claim_C5_counterexample :
    (analyzePhotoWithAI envBanana sampleFile "user-1").toOption.map
        (fun r => r.season) = some "Banana" ∧
    validSeasons.contains "Banana" = false := ⟨rfl, rfl⟩

/-- C5 amended: the final season is either one of the four valid values or
exactly the season string the model returned; in particular it is valid
whenever the model returns a valid season (empty seasons trigger the
random-season fallback). -/
theorem claim_C5_season_provenance (env : Env) (file : File) (userId : String)
    (r : AnalysisResult) (hr : analyzePhotoWithAI env file userId = .ok r) :
    (r.season ∈ validSeasons ∨
      ∃ resp, env.ai = .ok (some resp) ∧ r.season = resp.season) ∧
    ((∀ resp, env.ai = .ok (some resp) → resp.season ∈ validSeasons) →
      r.season ∈ validSeasons) := by
  unfold analyzePhotoWithAI at hr
  cases hpb : pipelineBody env file userId with
  | error e =>
    rw [hpb] at hr
    simp at hr
    subst hr
    constructor
    · exact Or.inl (mem_validSeasons_randomSeasonOf env.rand)
    · intro _; exact mem_validSeasons_randomSeasonOf env.rand
  | ok v =>
    rw [hpb] at hr
    simp at hr
    subst hr
    unfold pipelineBody at hpb
    cases hu : (uploadWithRetry env file userId).result with
    | error e => rw [hu] at hpb; cases hpb
    | ok up =>
      rw [hu] at hpb
      dsimp only at hpb
      cases hv : validateUploadedUrl env.head with
      | error e => rw [hv] at hpb; cases hpb
      | ok u =>
        rw [hv] at hpb
        dsimp only at hpb
        cases hbx : generateBasicAnalysis env up.publicUrl with
        | error e => rw [hbx] at hpb; cases hpb
        | ok b =>
          rw [hbx] at hpb
          have hvb : v = generateEnhancedAnalysis env b := by
            cases hpb; rfl
          subst hvb
          rw [enhanced_season env b]
          unfold generateBasicAnalysis at hbx
          cases hai : env.ai with
          | error e => rw [hai] at hbx; cases hbx
          | ok oresp =>
            rw [hai] at hbx
            cases oresp with
            | none => cases hbx
            | some resp =>
              by_cases hcomp : incompleteResponse resp = true
              · simp [hcomp] at hbx
                subst hbx
                constructor
                · exact Or.inl (mem_validSeasons_randomSeasonOf env.rand)
                · intro _; exact mem_validSeasons_randomSeasonOf env.rand
              · have hc : incompleteResponse resp = false := by simpa using hcomp
                simp [hc] at hbx
                subst hbx
                constructor
                · exact Or.inr ⟨resp, rfl, rfl⟩
                · intro hall; exact hall resp rfl

/-- C5 witness: on a run where the AI call fails, the returned season is one
of the four valid values. -/
theorem claim_C5_witness :
    (generateFallbackAnalysis envBase.rand sampleFile.name).season ∈ validSeasons :=
  (claim_C5_season_provenance envBase sampleFile "user-1"
      (generateFallbackAnalysis envBase.rand sampleFile.name) rfl).2
    (fun resp h => by simp [envBase] at h)

/-- C6: the upload retrier performs at most 3 attempts, waits
`2^attempt * 1000` ms (2000 ms, then 4000 ms) after each failed non-final
attempt and not after the last, and after 3 failures throws an error carrying
the attempt count and the last failure message. -/
theorem claim_C6_upload_retry_backoff (env : Env) (file : File) (userId : String)
    (hsz : file.size ≠ 0) (hbig : ¬ file.size > 15 * 1024 * 1024) :
    (uploadWithRetry env file userId).attempts ≤ 3 ∧
    (∀ m1 m2 m3,
      attemptResult (env.upload 1) = .error m1 →
      attemptResult (env.upload 2) = .error m2 →
      attemptResult (env.upload 3) = .error m3 →
      uploadWithRetry env file userId =
        { attempts := 3, delays := [2 ^ 1 * 1000, 2 ^ 2 * 1000],
          result := .error ("Upload failed after 3 attempts: " ++ m3) }) ∧
    (∀ m1 m2 res,
      attemptResult (env.upload 1) = .error m1 →
      attemptResult (env.upload 2) = .error m2 →
      attemptResult (env.upload 3) = .ok res →
      uploadWithRetry env file userId =
        { attempts := 3, delays := [2 ^ 1 * 1000, 2 ^ 2 * 1000],
          result := .ok res }) := by
  have hw : uploadWithRetry env file userId = runAttempts env.upload 3 1 none 3 := by
    unfold uploadWithRetry
    rw [if_neg hsz, if_neg hbig]
  refine ⟨?_, ?_, ?_⟩
  · rw [hw]; exact runAttempts_attempts_le 3 env.upload 3 1 none
  · intro m1 m2 m3 h1 h2 h3
    rw [hw]
    simp [runAttempts, h1, h2, h3, lastErrorMessage, uploadFailMsg]
  · intro m1 m2 res h1 h2 h3
    rw [hw]
    simp [runAttempts, h1, h2, h3]

/-- C6 witness: with a stub that always fails with `network down`, exactly 3
attempts occur, the two backoff delays are 2000 ms and 4000 ms, and the final
error carries the count and the underlying message. -/
theorem claim_C6_witness :
    uploadWithRetry envUploadFail sampleFile "user-1" =
      { attempts := 3, delays := [2 ^ 1 * 1000, 2 ^ 2 * 1000],
        result := .error ("Upload failed after 3 attempts: " ++ "network down") } :=
  (claim_C6_upload_retry_backoff envUploadFail sampleFile "user-1"
      (by decide) (by decide)).2.1
    "network down" "network down" "network down" rfl rfl rfl

/-- C8 amended: the 0-byte and oversized checks reject before any upload
attempt (`attempts = 0`), a 14 MiB file passes the size check and proceeds to
the retry loop — but the file name is never validated: an empty-name file also
proceeds to the upload attempts. -/
theorem claim_C8_upload_preconditions :
    (∀ (env : Env) (userId nm tp : String),
      uploadWithRetry env { name := nm, size := 0, type := tp } userId =
        { attempts := 0, delays := [],
          result := .error "Please select a valid image file" }) ∧
    (∀ (env : Env) (file : File) (userId : String), 15 * 1024 * 1024 < file.size →
      uploadWithRetry env file userId =
        { attempts := 0, delays := [],
          result := .error "File too large: Maximum size is 15MB" }) ∧
    (∀ (env : Env) (userId nm tp : String),
      uploadWithRetry env { name := nm, size := 14 * 1024 * 1024, type := tp } userId =
        runAttempts env.upload 3 1 none 3) ∧
    (∀ (env : Env) (userId tp : String) (sz : Nat), sz ≠ 0 → ¬ sz > 15 * 1024 * 1024 →
      uploadWithRetry env { name := "", size := sz, type := tp } userId =
        runAttempts env.upload 3 1 none 3) := by
  refine ⟨?_, ?_, ?_, ?_⟩
  · intro env userId nm tp; rfl
  · intro env file userId h
    unfold uploadWithRetry
    rw [if_neg (by omega), if_pos h]
  · intro env userId nm tp
    unfold uploadWithRetry
    norm_num
  · intro env userId tp sz h0 hbig
    unfold uploadWithRetry
    rw [if_neg h0, if_neg hbig]

/-- C8 counterexample: a file with an empty name (and positive size) is not
rejected — the upload proceeds and succeeds on the first attempt. -/
theorem claim_C8_counterexample :
    uploadWithRetry envBase { name := "", size := 1, type := "image/jpeg" } "user-1" =
      { attempts := 1, delays := [],
        result := .ok { publicUrl := "https://cdn.example/img.png" } } := rfl

/-- C8 witness: a 16 MiB file is rejected before any attempt. -/
theorem claim_C8_witness :
    uploadWithRetry envBase
        { name := "big.jpg", size := 16 * 1024 * 1024, type := "image/jpeg" } "user-1" =
      { attempts := 0, delays := [],
        result := .error "File too large: Maximum size is 15MB" } :=
  claim_C8_upload_preconditions.2.1 envBase
    { name := "big.jpg", size := 16 * 1024 * 1024, type := "image/jpeg" } "user-1"
    (by decide)

/-- The top-level call always resolves with a result, for every outcome of the
external calls. -/
theorem analyze_always_ok (env : Env) (file : File) (userId : String) :
    ∃ r, analyzePhotoWithAI env file userId = .ok r := by
  cases h : pipelineBody env file userId with
  | ok r => exact ⟨r, by simp [analyzePhotoWithAI, h]⟩
  | error e =>
    exact ⟨generateFallbackAnalysis env.rand file.name, by simp [analyzePhotoWithAI, h]⟩

/-- The total-fallback result is structurally complete. -/
theorem fallbackAnalysis_complete (rand : Fin 4) (fn : String) :
    completeResult (generateFallbackAnalysis rand fn) := by
  refine ⟨rfl, mem_validSeasons_randomSeasonOf rand, ?_, ?_, rfl, rfl, rfl⟩
  · intro hnil
    have := fallbackPremium_length (fallbackBasic rand)
    rw [show (generateFallbackPremiumData (fallbackBasic rand)).premiumColors =
        (generateFallbackAnalysis rand fn).premiumColors from rfl, hnil] at this
    simp at this
  · exact List.cons_ne_nil _ _

/-- C1: every error thrown at any stage is caught by the single top-level
handler and converted into the Fallback Generator result, so the call always
resolves (never an exception), and the fallback result is complete. -/
theorem claim_C1_error_absorption (env : Env) (file : File) (userId : String) :
    (∃ r, analyzePhotoWithAI env file userId = .ok r) ∧
    (∀ e, pipelineBody env file userId = .error e →
      analyzePhotoWithAI env file userId =
        .ok (generateFallbackAnalysis env.rand file.name)) ∧
    completeResult (generateFallbackAnalysis env.rand file.name) := by
  refine ⟨analyze_always_ok env file userId, ?_,
    fallbackAnalysis_complete env.rand file.name⟩
  intro e he
  simp [analyzePhotoWithAI, he]

/-- C1 witness: with storage permanently down, the call resolves with the
fallback result. -/
theorem claim_C1_witness :
    analyzePhotoWithAI envUploadFail sampleFile "user-1" =
      .ok (generateFallbackAnalysis envUploadFail.rand sampleFile.name) :=
  (claim_C1_error_absorption envUploadFail sampleFile "user-1").2.1
    ("Upload failed after 3 attempts: " ++ "network down") rfl

/-- C2 counterexample: a 0-byte file does not raise the validation error to
the pipeline caller — the call resolves with the fallback result instead. -/
theorem claim_C2_counterexample :
    analyzePhotoWithAI envBase zeroByteFile "user-1" =
      .ok (generateFallbackAnalysis envBase.rand zeroByteFile.name) := rfl

/-- C2 amended: the upload preconditions do raise errors, but only as far as
`uploadWithRetry` — `analyzePhotoWithAI` absorbs them like every other
failure, so no error reaches the pipeline caller. -/
theorem claim_C2_error_propagation (env : Env) (file : File) (userId : String) :
    (file.size = 0 →
      (uploadWithRetry env file userId).result =
        .error "Please select a valid image file") ∧
    (15 * 1024 * 1024 < file.size →
      (uploadWithRetry env file userId).result =
        .error "File too large: Maximum size is 15MB") ∧
    (∃ r, analyzePhotoWithAI env file userId = .ok r) := by
  refine ⟨?_, ?_, analyze_always_ok env file userId⟩
  · intro h
    unfold uploadWithRetry
    rw [if_pos h]
  · intro h
    unfold uploadWithRetry
    rw [if_neg (by omega), if_pos h]

/-- C2 witness: a 0-byte file makes the upload stage itself raise the
validation error. -/
theorem claim_C2_witness :
    (uploadWithRetry envBase zeroByteFile "user-1").result =
      .error "Please select a valid image file" :=
  (claim_C2_error_propagation envBase zeroByteFile "user-1").1 rfl

end PhotoAnalysis
